import Mathlib

/-!
Verification of the ShareExtension project-patching scripts
(`fix_xcode_project.py`, `configure_share_extension.py`,
`validate_implementation.py`) against their specification.

The scripts mutate an Xcode `project.pbxproj` descriptor by regular-expression
text surgery.  The patterns used by the scripts are built only from literal
text, single-character classes with greedy `+` `*` `?` quantifiers, and capture
groups, so they are embedded here as token lists interpreted by a small
backtracking matcher with Python semantics (leftmost match, greedy
quantifiers, backtracking on failure).  `re.sub` is embedded as a scan that
replaces every non-overlapping match from the left.  All matchers are
executable, so concrete runs of the scripts can be evaluated inside proofs.

Strings are modelled as `List Char` internally with `String` wrappers at the
interfaces.  Literal braces inside string literals are written with `\x7b` and
`\x7d` escapes.
-/

/-- Python `\s` whitespace class (also the set stripped by `str.strip()`). -/
def isPySpace (c : Char) : Bool :=
  c == ' ' || c == '\t' || c == '\n' || c == '\x0d' || c == '\x0c' || c == '\x0b'

/-- Drop leading Python whitespace. -/
def pyStripLeft : List Char → List Char
  | [] => []
  | c :: t => if isPySpace c then pyStripLeft t else c :: t

/-- Python `str.strip()`: drop leading and trailing whitespace. -/
def pyStrip (s : List Char) : List Char :=
  ((pyStripLeft s).reverse |> pyStripLeft).reverse

/-- Python `needle in hay` substring test (tail recursive so that long
patched descriptors evaluate without deep recursion). -/
def containsSub (needle : List Char) : List Char → Bool
  | [] => needle.isEmpty
  | c :: rest => if needle.isPrefixOf (c :: rest) then true else containsSub needle rest

/-- Tail-recursive worker for `countSub`. -/
def countSubAux (needle : List Char) (acc : Nat) : List Char → Nat
  | [] => acc
  | c :: rest =>
      countSubAux needle (if needle.isPrefixOf (c :: rest) then acc + 1 else acc) rest

/-- Number of positions at which `needle` occurs in the text (used to count
occurrences of object IDs and settings lines in patched descriptors). -/
def countSub (needle s : List Char) : Nat := countSubAux needle 0 s

/-- Number of positions `< k` at which `needle` occurs in the text (an
occurrence may extend past position `k`).  Together with `countSub` applied
to `s.drop k` this splits the total occurrence count of a text at position
`k`, which keeps each scan short enough for kernel evaluation on long
patched descriptors. -/
def countSubIn (k : Nat) (needle : List Char) (acc : Nat) (s : List Char) : Nat :=
  match k with
  | 0 => acc
  | k + 1 =>
    match s with
    | [] => acc
    | c :: rest =>
        countSubIn k needle (if needle.isPrefixOf (c :: rest) then acc + 1 else acc) rest

/-- One token of a Python regular expression of the restricted shape used by
the scripts: a literal, a greedy quantified single-character class
(`lo` minimum repetitions, `hi` an optional maximum, `none` meaning
unbounded), or a capture-group delimiter. -/
inductive Tok where
  | lit : List Char → Tok
  | cls : (Char → Bool) → Nat → Option Nat → Tok
  | gopen : Nat → Tok
  | gclose : Nat → Tok

/-- Captured groups of one match: group number paired with captured text. -/
abbrev Caps := List (Nat × List Char)

/-- Text of capture group `n` (Python `match.group(n)`). -/
def capture (n : Nat) (caps : Caps) : List Char :=
  match caps.find? (fun p => p.1 == n) with
  | some p => p.2
  | none => []

/-- Backtracking matcher for a token sequence against a prefix of `s`,
following Python `re` semantics: literals must match exactly, a greedy class
first tries to consume a character and only on failure of the whole
continuation falls back to exiting the quantifier (allowed when the minimum
is met).  `pend` stacks the input positions of open capture groups; `caps`
collects closed captures.  Returns the captures and the remaining input after
the match.  `fuel` bounds the backtracking; every call site passes a bound
that is not reached on the inputs considered. -/
def mseq (fuel : Nat) (toks : List Tok) (s : List Char)
    (pend : List (Nat × List Char)) (caps : Caps) : Option (Caps × List Char) :=
  match fuel with
  | 0 => none
  | fuel + 1 =>
    match toks with
    | [] => some (caps, s)
    | .lit l :: ts =>
        if l.isPrefixOf s then mseq fuel ts (s.drop l.length) pend caps else none
    | .gopen n :: ts => mseq fuel ts s ((n, s) :: pend) caps
    | .gclose n :: ts =>
        match pend with
        | [] => none
        | (m, st) :: pend' =>
            if m == n then
              mseq fuel ts s pend' ((n, st.take (st.length - s.length)) :: caps)
            else none
    | .cls p lo hi :: ts =>
        let tryConsume :=
          match s with
          | [] => none
          | c :: s' =>
              if p c && (match hi with | none => true | some h => h != 0) then
                mseq fuel
                  (.cls p (lo - 1) (match hi with | none => none | some h => some (h - 1)) :: ts)
                  s' pend caps
              else none
        match tryConsume with
        | some r => some r
        | none => if lo == 0 then mseq fuel ts s pend caps else none

/-- Backtracking fuel for one match attempt; far above the number of matcher
steps any of the script patterns can take on the inputs considered here. -/
def matchFuel (s : List Char) : Nat :=
  (s.length + 64) ^ 8

/-- Reverse `src` onto `dst` with a step bound (`List.reverseAux` with fuel;
the bound, far above every text length arising here, keeps the recursion
structural on a numeral, which the kernel evaluates iteratively even on long
patched descriptors). -/
def revAppN (fuel : Nat) (src dst : List Char) : List Char :=
  match fuel with
  | 0 => dst
  | fuel + 1 =>
    match src with
    | [] => dst
    | c :: src' => revAppN fuel src' (c :: dst)

/-- Step bound for `revAppN`. -/
def revAppFuel : Nat := 1000000

/-- Python `re.sub` with `count = 0`: scan from the left, replace every
non-overlapping match by `repl` applied to the whole match (group 0) and the
captures, and resume scanning right after the replaced span.  All patterns
used by the scripts match at least one character, so the zero-width branch
(kept for totality) is never taken.  `acc` accumulates the emitted output in
reverse (tail recursion).  `fuel` bounds the scan; call sites pass
`s.length + 1`, which suffices because every step consumes at least one
character. -/
def subAll (fuel : Nat) (toks : List Tok) (repl : List Char → Caps → List Char)
    (acc s : List Char) : List Char :=
  match fuel with
  | 0 => revAppN revAppFuel acc s
  | fuel + 1 =>
    match mseq (matchFuel s) toks s [] [] with
    | some (caps, rest) =>
        let mlen := s.length - rest.length
        if mlen == 0 then
          match s with
          | [] => revAppN revAppFuel acc []
          | c :: s' => subAll fuel toks repl (c :: acc) s'
        else
          subAll fuel toks repl (revAppN revAppFuel (repl (s.take mlen) caps) acc) rest
    | none =>
        match s with
        | [] => revAppN revAppFuel acc []
        | c :: s' => subAll fuel toks repl (c :: acc) s'

/-- `re.sub(pattern, repl, s)` for the token-list embedding of `pattern`. -/
def pySub (toks : List Tok) (repl : List Char → Caps → List Char)
    (s : List Char) : List Char :=
  subAll (s.length + 1) toks repl [] s

/-! ## Character classes appearing in the script patterns -/

/-- The class `[^\x7d]` (any character other than a closing brace). -/
def notRBrace (c : Char) : Bool := c != '\x7d'

/-- The class `[^\x7b]` (any character other than an opening brace). -/
def notLBrace (c : Char) : Bool := c != '\x7b'

/-- The class `[^)]` (any character other than a closing parenthesis). -/
def notRParen (c : Char) : Bool := c != ')'

/-- The class `[A-F0-9]` used to match object IDs in resource entries. -/
def isUpperHexChar (c : Char) : Bool :=
  ('A' ≤ c && c ≤ 'F') || ('0' ≤ c && c ≤ '9')

/-! ## fix_xcode_project.fix_shareextension_target_settings -/

/-- The canonical ShareExtension build settings shared by both
configurations (`shareext_settings` in the script, transcribed verbatim,
including the `CLANG_WARN_UNUSUED_VARIABLE` spelling). -/
def shareext_settings : String :=
  "\n\t\t\t\tASSETCATALOG_COMPILER_GENERATE_SWIFT_ASSET_SYMBOL_EXTENSIONS = YES;\n\t\t\t\tCLANG_ANALYZER_NONNULL = YES;\n\t\t\t\tCLANG_ANALYZER_NUMBER_OBJECT_CONVERSION = YES_AGGRESSIVE;\n\t\t\t\tCLANG_CXX_LANGUAGE_STANDARD = \"gnu++20\";\n\t\t\t\tCLANG_ENABLE_MODULES = YES;\n\t\t\t\tCLANG_ENABLE_OBJC_ARC = YES;\n\t\t\t\tCLANG_ENABLE_OBJC_WEAK = YES;\n\t\t\t\tCLANG_WARN_BLOCK_CAPTURE_AUTORELEASING = YES;\n\t\t\t\tCLANG_WARN_BOOL_CONVERSION = YES;\n\t\t\t\tCLANG_WARN_COMMA = YES;\n\t\t\t\tCLANG_WARN_CONSTANT_CONVERSION = YES;\n\t\t\t\tCLANG_WARN_DEPRECATED_OBJC_IMPLEMENTATIONS = YES;\n\t\t\t\tCLANG_WARN_DIRECT_OBJC_ISA_USAGE = YES_ERROR;\n\t\t\t\tCLANG_WARN_DOCUMENTATION_COMMENTS = YES;\n\t\t\t\tCLANG_WARN_EMPTY_BODY = YES;\n\t\t\t\tCLANG_WARN_ENUM_CONVERSION = YES;\n\t\t\t\tCLANG_WARN_INFINITE_RECURSION = YES;\n\t\t\t\tCLANG_WARN_INT_CONVERSION = YES;\n\t\t\t\tCLANG_WARN_NON_LITERAL_NULL_CONVERSION = YES;\n\t\t\t\tCLANG_WARN_OBJC_IMPLICIT_RETAIN_SELF = YES;\n\t\t\t\tCLANG_WARN_OBJC_LITERAL_CONVERSION = YES;\n\t\t\t\tCLANG_WARN_OBJC_ROOT_CLASS = YES_ERROR;\n\t\t\t\tCLANG_WARN_QUOTED_INCLUDE_IN_FRAMEWORK_HEADER = YES;\n\t\t\t\tCLANG_WARN_RANGE_LOOP_ANALYSIS = YES;\n\t\t\t\tCLANG_WARN_STRICT_PROTOTYPES = YES;\n\t\t\t\tCLANG_WARN_SUSPICIOUS_MOVE = YES;\n\t\t\t\tCLANG_WARN_UNGUARDED_AVAILABILITY = YES_AGGRESSIVE;\n\t\t\t\tCLANG_WARN_UNREACHABLE_CODE = YES;\n\t\t\t\tCLANG_WARN_UNUSUED_VARIABLE = YES;\n\t\t\t\tCODE_SIGN_ENTITLEMENTS = \"ShareExtension/Sources/ShareExtension.entitlements\";\n\t\t\t\tCODE_SIGN_STYLE = Automatic;\n\t\t\t\tCURRENT_PROJECT_VERSION = 1;\n\t\t\t\tDEVELOPMENT_TEAM = \"\";\n\t\t\t\tENABLE_STRICT_OBJC_MSGSEND = YES;\n\t\t\t\tGCC_C_LANGUAGE_STANDARD = gnu17;\n\t\t\t\tGCC_NO_COMMON_BLOCKS = YES;\n\t\t\t\tGCC_WARN_64_TO_32_BIT_CONVERSION = YES;\n\t\t\t\tGCC_WARN_ABOUT_RETURN_TYPE = YES_ERROR;\n\t\t\t\tGCC_WARN_UNDECLARED_SELECTOR = YES;\n\t\t\t\tGCC_WARN_UNINITIALIZED_AUTOS = YES_AGGRESSIVE;\n\t\t\t\tGCC_WARN_UNUSED_FUNCTION = YES;\n\t\t\t\tGCC_WARN_UNUSED_VARIABLE = YES;\n\t\t\t\tGENERATE_INFOPLIST_FILE = YES;\n\t\t\t\tINFOPLIST_FILE = \"ShareExtension/Sources/Info.plist\";\n\t\t\t\tINFOPLIST_KEY_CFBundleDisplayName = \"Hamrah Share\";\n\t\t\t\tINFOPLIST_KEY_NSHumanReadableCopyright = \"\";\n\t\t\t\tIPHONEOS_DEPLOYMENT_TARGET = 17.0;\n\t\t\t\tLD_RUNPATH_SEARCH_PATHS = (\n\t\t\t\t\t\"$(inherited)\",\n\t\t\t\t\t\"@executable_path/Frameworks\",\n\t\t\t\t\t\"@executable_path/../../Frameworks\",\n\t\t\t\t);\n\t\t\t\tMACOSX_DEPLOYMENT_TARGET = 14.0;\n\t\t\t\tMARKETING_VERSION = 1.0;\n\t\t\t\tMTL_ENABLE_DEBUG_INFO = INCLUDE_SOURCE;\n\t\t\t\tMTL_FAST_MATH = YES;\n\t\t\t\tPRODUCT_BUNDLE_IDENTIFIER = \"app.hamrah.ios.ShareExtension\";\n\t\t\t\tPRODUCT_NAME = \"$(TARGET_NAME)\";\n\t\t\t\tSKIP_INSTALL = YES;\n\t\t\t\tSUPPORTED_PLATFORMS = \"iphoneos iphonesimulator macosx\";\n\t\t\t\tSWIFT_EMIT_LOC_STRINGS = YES;\n\t\t\t\tSWIFT_VERSION = 5.0;\n\t\t\t\tTARGETED_DEVICE_FAMILY = \"1,2\";"

/-- Debug-configuration settings (`debug_settings` in the script). -/
def debug_settings : String :=
  shareext_settings ++
  "\n\t\t\t\tDEBUG_INFORMATION_FORMAT = dwarf;\n\t\t\t\tENABLE_TESTABILITY = YES;\n\t\t\t\tGCC_DYNAMIC_NO_PIC = NO;\n\t\t\t\tGCC_OPTIMIZATION_LEVEL = 0;\n\t\t\t\tGCC_PREPROCESSOR_DEFINITIONS = (\n\t\t\t\t\t\"DEBUG=1\",\n\t\t\t\t\t\"$(inherited)\",\n\t\t\t\t);\n\t\t\t\tMTL_ENABLE_DEBUG_INFO = INCLUDE_SOURCE;\n\t\t\t\tONLY_ACTIVE_ARCH = YES;\n\t\t\t\tSWIFT_ACTIVE_COMPILATION_CONDITIONS = \"DEBUG $(inherited)\";\n\t\t\t\tSWIFT_OPTIMIZATION_LEVEL = \"-Onone\";"

/-- Release-configuration settings (`release_settings` in the script). -/
def release_settings : String :=
  shareext_settings ++
  "\n\t\t\t\tCOPY_PHASE_STRIP = NO;\n\t\t\t\tDEBUG_INFORMATION_FORMAT = \"dwarf-with-dsym\";\n\t\t\t\tENABLE_NS_ASSERTIONS = NO;\n\t\t\t\tMTL_ENABLE_DEBUG_INFO = NO;\n\t\t\t\tSWIFT_COMPILATION_MODE = wholemodule;"

/-- Pattern `(5FEXTDBG0001[^\x7d]+buildSettings\s*=\s*\x7b)([^\x7d]+)(\x7d;)`
(flags `re.DOTALL`; `.` does not occur, so the flag has no effect here). -/
def debug_config_toks : List Tok :=
  [ .gopen 1, .lit "5FEXTDBG0001".data, .cls notRBrace 1 none,
    .lit "buildSettings".data, .cls isPySpace 0 none, .lit "=".data,
    .cls isPySpace 0 none, .lit "\x7b".data, .gclose 1,
    .gopen 2, .cls notRBrace 1 none, .gclose 2,
    .gopen 3, .lit "\x7d;".data, .gclose 3 ]

/-- Pattern `(5FEXTREL0001[^\x7d]+buildSettings\s*=\s*\x7b)([^\x7d]+)(\x7d;)`. -/
def release_config_toks : List Tok :=
  [ .gopen 1, .lit "5FEXTREL0001".data, .cls notRBrace 1 none,
    .lit "buildSettings".data, .cls isPySpace 0 none, .lit "=".data,
    .cls isPySpace 0 none, .lit "\x7b".data, .gclose 1,
    .gopen 2, .cls notRBrace 1 none, .gclose 2,
    .gopen 3, .lit "\x7d;".data, .gclose 3 ]

/-- `fix_shareextension_target_settings`: rewrite the matched buildSettings
blocks of the two anchored configurations with the canonical settings, via
two `re.sub` calls with replacement `\1 <settings> \n\t\t\t \3`. -/
def fix_shareextension_target_settings (content : String) : String :=
  let c1 := pySub debug_config_toks
    (fun _ caps =>
      capture 1 caps ++ debug_settings.data ++ "\n\t\t\t".data ++ capture 3 caps)
    content.data
  let c2 := pySub release_config_toks
    (fun _ caps =>
      capture 1 caps ++ release_settings.data ++ "\n\t\t\t".data ++ capture 3 caps)
    c1
  String.mk c2

/-! ## fix_xcode_project.fix_file_references -/

/-- `fix_file_references`: three `re.sub` calls whose patterns contain only
literal characters (the sole regex metacharacter is an escaped dot), so each
is plain substring substitution of the old path by the new path. -/
def fix_file_references (content : String) : String :=
  let c1 := pySub [Tok.lit "hamrah-ios/ShareExtension/ShareViewController.swift".data]
    (fun _ _ => "ShareExtension/Sources/ShareViewController.swift".data) content.data
  let c2 := pySub [Tok.lit "hamrah-ios/ShareExtension/Info.plist".data]
    (fun _ _ => "ShareExtension/Sources/Info.plist".data) c1
  let c3 := pySub [Tok.lit "hamrah-ios/ShareExtension/Utilities/ShareExtensionDataStack.swift".data]
    (fun _ _ => "ShareExtension/Sources/Utilities/ShareExtensionDataStack.swift".data) c2
  String.mk c3

/-! ## fix_xcode_project.add_embedded_extension -/

/-- Pattern
`(3AC7BF752E4900DF00D7AA35[^\x7b]+\x7b[^\x7d]+dependencies\s*=\s*\()([^)]*)\);`
locating the main app target's dependencies list (flags `re.DOTALL`; the
classes already admit newlines). -/
def main_target_toks : List Tok :=
  [ .gopen 1, .lit "3AC7BF752E4900DF00D7AA35".data, .cls notLBrace 1 none,
    .lit "\x7b".data, .cls notRBrace 1 none, .lit "dependencies".data,
    .cls isPySpace 0 none, .lit "=".data, .cls isPySpace 0 none, .lit "(".data,
    .gclose 1,
    .gopen 2, .cls notRParen 0 none, .gclose 2,
    .lit ");".data ]

/-- Replacement function `add_dependency`: append the `5FEXTDEP0001` entry to
the captured dependencies list.  The source appends unconditionally — it does
not test whether the list already contains the entry. -/
def add_dependency (g0 : List Char) (caps : Caps) : List Char :=
  let dependencies := pyStrip (capture 2 caps)
  let _ := g0
  if !dependencies.isEmpty then
    capture 1 caps ++ dependencies ++
      ",\n\t\t\t\t5FEXTDEP0001 /* PBXTargetDependency */,\n\t\t\t);".data
  else
    capture 1 caps ++
      "\n\t\t\t\t5FEXTDEP0001 /* PBXTargetDependency */,\n\t\t\t);".data

/-- `dependency_section` literal inserted before the PBXTargetDependency
section end marker. -/
def dependency_section : String :=
  "\t\t5FEXTDEP0001 /* PBXTargetDependency */ = \x7b\n\t\t\tisa = PBXTargetDependency;\n\t\t\ttarget = 5FEXTTGT0001 /* HamrahShare */;\n\t\t\ttargetProxy = 5FEXTPRX0001 /* PBXContainerItemProxy */;\n\t\t\x7d;"

/-- `proxy_section` literal inserted before the PBXContainerItemProxy section
end marker. -/
def proxy_section : String :=
  "\t\t5FEXTPRX0001 /* PBXContainerItemProxy */ = \x7b\n\t\t\tisa = PBXContainerItemProxy;\n\t\t\tcontainerPortal = 3AC7BF6E2E4900DF00D7AA35 /* Project object */;\n\t\t\tproxyType = 1;\n\t\t\tremoteGlobalIDString = 5FEXTTGT0001;\n\t\t\tremoteInfo = HamrahShare;\n\t\t\x7d;"

/-- `embed_section` literal inserted before the PBXCopyFilesBuildPhase
section end marker. -/
def embed_section : String :=
  "\t\t5FEXTBED0001 /* Embed App Extensions */ = \x7b\n\t\t\tisa = PBXCopyFilesBuildPhase;\n\t\t\tbuildActionMask = 2147483647;\n\t\t\tdstPath = \"\";\n\t\t\tdstSubfolderSpec = 13;\n\t\t\tfiles = (\n\t\t\t\t5FEXTBLD0001 /* HamrahShare.appex in Embed App Extensions */,\n\t\t\t);\n\t\t\tname = \"Embed App Extensions\";\n\t\t\trunOnlyForDeploymentPostprocessing = 0;\n\t\t\x7d;"

/-- `build_file_section` literal inserted before the PBXBuildFile section end
marker. -/
def build_file_section : String :=
  "\t\t5FEXTBLD0001 /* HamrahShare.appex in Embed App Extensions */ = \x7b\n\t\t\tisa = PBXBuildFile;\n\t\t\tfileRef = 5FEXTPRD0001 /* HamrahShare.appex */;\n\t\t\tsettings = \x7bATTRIBUTES = (RemoveHeadersOnCopy, ); \x7d;\n\t\t\x7d;"

/-- Pattern `(/\* End PBXTargetDependency section \*/)`. -/
def dependency_end_toks : List Tok :=
  [ .gopen 1, .lit "/* End PBXTargetDependency section */".data, .gclose 1 ]

/-- Pattern `(/\* End PBXContainerItemProxy section \*/)`. -/
def proxy_end_toks : List Tok :=
  [ .gopen 1, .lit "/* End PBXContainerItemProxy section */".data, .gclose 1 ]

/-- Pattern `(/\* End PBXCopyFilesBuildPhase section \*/)`. -/
def copy_end_toks : List Tok :=
  [ .gopen 1, .lit "/* End PBXCopyFilesBuildPhase section */".data, .gclose 1 ]

/-- Pattern `(/\* End PBXBuildFile section \*/)`. -/
def build_file_end_toks : List Tok :=
  [ .gopen 1, .lit "/* End PBXBuildFile section */".data, .gclose 1 ]

/-- Pattern
`(3AC7BF752E4900DF00D7AA35[^\x7b]+\x7b[^\x7d]+buildPhases\s*=\s*\()([^)]*)\);`
locating the main app target's buildPhases list. -/
def embed_phase_toks : List Tok :=
  [ .gopen 1, .lit "3AC7BF752E4900DF00D7AA35".data, .cls notLBrace 1 none,
    .lit "\x7b".data, .cls notRBrace 1 none, .lit "buildPhases".data,
    .cls isPySpace 0 none, .lit "=".data, .cls isPySpace 0 none, .lit "(".data,
    .gclose 1,
    .gopen 2, .cls notRParen 0 none, .gclose 2,
    .lit ");".data ]

/-- Replacement function `add_embed_phase`: append the `5FEXTBED0001` entry
unless the captured phases list already contains it (here the source does
check membership before appending). -/
def add_embed_phase (g0 : List Char) (caps : Caps) : List Char :=
  let phases := pyStrip (capture 2 caps)
  if !containsSub "5FEXTBED0001".data phases then
    if !phases.isEmpty then
      capture 1 caps ++ phases ++
        ",\n\t\t\t\t5FEXTBED0001 /* Embed App Extensions */,\n\t\t\t);".data
    else
      capture 1 caps ++
        "\n\t\t\t\t5FEXTBED0001 /* Embed App Extensions */,\n\t\t\t);".data
  else g0

/-- `add_embedded_extension`: append the dependency edge to the main target's
dependencies list, then — only when the ID is absent from the whole text,
which the preceding substitution has just made true whenever the target
matched — insert the PBXTargetDependency and PBXContainerItemProxy object
definitions; then the analogous steps for the embed build phase and its
build file. -/
def add_embedded_extension (content : String) : String :=
  let c := pySub main_target_toks add_dependency content.data
  let c :=
    if !containsSub "5FEXTDEP0001".data c then
      let c := pySub dependency_end_toks
        (fun _ caps => dependency_section.data ++ "\n".data ++ capture 1 caps) c
      if !containsSub "5FEXTPRX0001".data c then
        pySub proxy_end_toks
          (fun _ caps => proxy_section.data ++ "\n".data ++ capture 1 caps) c
      else c
    else c
  let c := pySub embed_phase_toks add_embed_phase c
  let c :=
    if !containsSub "5FEXTBED0001".data c then
      let c := pySub copy_end_toks
        (fun _ caps => embed_section.data ++ "\n".data ++ capture 1 caps) c
      if !containsSub "5FEXTBLD0001".data c then
        pySub build_file_end_toks
          (fun _ caps => build_file_section.data ++ "\n".data ++ capture 1 caps) c
      else c
    else c
  String.mk c

/-! ## fix_xcode_project.remove_shareextension_from_main_app_resources -/

/-- Pattern `\s*[A-F0-9]+\s*/\*\s*Info\.plist\s*in\s*Resources\s*\*/,?\s*\n`. -/
def shareext_info_toks : List Tok :=
  [ .cls isPySpace 0 none, .cls isUpperHexChar 1 none, .cls isPySpace 0 none,
    .lit "/*".data, .cls isPySpace 0 none, .lit "Info.plist".data,
    .cls isPySpace 0 none, .lit "in".data, .cls isPySpace 0 none,
    .lit "Resources".data, .cls isPySpace 0 none, .lit "*/".data,
    .cls (fun c => c == ',') 0 (some 1), .cls isPySpace 0 none, .lit "\n".data ]

/-- Pattern `\s*[A-F0-9]+\s*/\*\s*ShareExtension\s*in\s*Resources\s*\*/,?\s*\n`. -/
def shareext_dir_toks : List Tok :=
  [ .cls isPySpace 0 none, .cls isUpperHexChar 1 none, .cls isPySpace 0 none,
    .lit "/*".data, .cls isPySpace 0 none, .lit "ShareExtension".data,
    .cls isPySpace 0 none, .lit "in".data, .cls isPySpace 0 none,
    .lit "Resources".data, .cls isPySpace 0 none, .lit "*/".data,
    .cls (fun c => c == ',') 0 (some 1), .cls isPySpace 0 none, .lit "\n".data ]

/-- `remove_shareextension_from_main_app_resources`: delete every build-file
entry matching the two filename-comment patterns, anywhere in the text. -/
def remove_shareextension_from_main_app_resources (content : String) : String :=
  let c := pySub shareext_info_toks (fun _ _ => []) content.data
  let c := pySub shareext_dir_toks (fun _ _ => []) c
  String.mk c

/-! ## fix_xcode_project.fix_file_system_sync_groups -/

/-- Pattern
`(5FMAINGRP0001[^\x7b]+\x7b[^\x7d]+exceptions\s*=\s*\([^)]*membershipExceptions\s*=\s*\()([^)]*)\);`. -/
def sync_group_toks : List Tok :=
  [ .gopen 1, .lit "5FMAINGRP0001".data, .cls notLBrace 1 none, .lit "\x7b".data,
    .cls notRBrace 1 none, .lit "exceptions".data, .cls isPySpace 0 none,
    .lit "=".data, .cls isPySpace 0 none, .lit "(".data, .cls notRParen 0 none,
    .lit "membershipExceptions".data, .cls isPySpace 0 none, .lit "=".data,
    .cls isPySpace 0 none, .lit "(".data, .gclose 1,
    .gopen 2, .cls notRParen 0 none, .gclose 2,
    .lit ");".data ]

/-- Replacement function `update_exceptions`: append a quoted
`"ShareExtension"` entry to the membershipExceptions list unless the captured
list already mentions `ShareExtension`. -/
def update_exceptions (g0 : List Char) (caps : Caps) : List Char :=
  let exceptions := pyStrip (capture 2 caps)
  if !containsSub "ShareExtension".data exceptions then
    if !exceptions.isEmpty then
      capture 1 caps ++ exceptions ++
        ",\n\t\t\t\t\"ShareExtension\",\n\t\t\t);".data
    else
      capture 1 caps ++ "\n\t\t\t\t\"ShareExtension\",\n\t\t\t);".data
  else g0

/-- `fix_file_system_sync_groups`. -/
def fix_file_system_sync_groups (content : String) : String :=
  String.mk (pySub sync_group_toks update_exceptions content.data)

/-- The patch sequence exactly as `main` applies it to the in-memory text:
settings rewrite, file references, embedded extension, resource removal,
synchronized groups. -/
def apply_all_patches (content : String) : String :=
  fix_file_system_sync_groups
    (remove_shareextension_from_main_app_resources
      (add_embedded_extension
        (fix_file_references
          (fix_shareextension_target_settings content))))

/-! ## fix_xcode_project.generate_uuid -/

/-- `generate_uuid` computes `uuid.uuid4().hex[:24].upper()`.  The digest
`uuid.uuid4().hex` is a 32-character lowercase hexadecimal string; it is
passed here as the argument, and the function takes its first 24 characters
and uppercases them. -/
def generate_uuid (hex32 : List Char) : List Char :=
  (hex32.take 24).map Char.toUpper

/-! ## fix_xcode_project.main — orchestrator over a file-system state

The orchestrator touches two on-disk artefacts, the project descriptor
`hamrah-ios.xcodeproj/project.pbxproj` and its sibling
`project.pbxproj.backup`; the state records their contents (`none` when the
file does not exist) together with the existence of the `.xcodeproj`
directory that `main` checks first.  The `try` block of `main` is embedded by
threading an optional exception: patch steps are passed as `Except`-valued
functions so that a run with a raising step — the situation the error-handling
contracts speak about — can be expressed; the five real patch steps are total
and are lifted with `Except.ok`. -/

/-- Exceptions of the Python run that the `try`/`except` of `main` observes. -/
inductive PyExn where
  | ioError
  | patchError
deriving DecidableEq

/-- On-disk state seen by the scripts. -/
structure FS where
  xcodeprojDirExists : Bool
  project : Option String
  backup : Option String
deriving DecidableEq

/-- `backup_project`: `shutil.copy2` of the descriptor to the backup path;
raises when the descriptor does not exist. -/
def backup_project (fs : FS) : Except PyExn FS :=
  match fs.project with
  | none => .error .ioError
  | some c => .ok { fs with backup := some c }

/-- `read_project_file`: read the descriptor; raises when it does not exist. -/
def read_project_file (fs : FS) : Except PyExn String :=
  match fs.project with
  | none => .error .ioError
  | some c => .ok c

/-- `write_project_file`: overwrite the descriptor with `content`. -/
def write_project_file (content : String) (fs : FS) : FS :=
  { fs with project := some content }

/-- A patch step as observed by the `try` block: the five real steps are
total, but the block catches any exception a step raises, so steps are passed
in `Except`. -/
abbrev PatchStep := String → Except PyExn String

/-- The patch sequence of `main`: apply each step in order to the in-memory
text, stopping at the first exception. -/
def applySteps : List PatchStep → String → Except PyExn String
  | [], c => .ok c
  | f :: rest, c =>
      match f c with
      | .error e => .error e
      | .ok c' => applySteps rest c'

/-- The five patch steps of `main` in source order, lifted to `PatchStep`. -/
def real_patch_steps : List PatchStep :=
  [ fun c => .ok (fix_shareextension_target_settings c),
    fun c => .ok (fix_file_references c),
    fun c => .ok (add_embedded_extension c),
    fun c => .ok (remove_shareextension_from_main_app_resources c),
    fun c => .ok (fix_file_system_sync_groups c) ]

/-- The `try` block of `main`: back up, read, patch, and only after every
step has succeeded write the mutated text back.  Returns the state reached
together with the exception caught, if any. -/
def tryMain (steps : List PatchStep) (fs : FS) : FS × Option PyExn :=
  match backup_project fs with
  | .error e => (fs, some e)
  | .ok fs1 =>
      match read_project_file fs1 with
      | .error e => (fs1, some e)
      | .ok content =>
          match applySteps steps content with
          | .error e => (fs1, some e)
          | .ok content' => (write_project_file content' fs1, none)

/-- The `main` function of `fix_xcode_project.py` (named `fix_xcode_main`
here because Lean reserves `main`): check that the `.xcodeproj` directory
exists, run the `try` block, and in the `except` branch restore the
descriptor from the backup — but only when `os.path.exists` reports the
backup file, otherwise the restore is skipped and `main` simply returns
`False`. -/
def fix_xcode_main (steps : List PatchStep) (fs : FS) : Bool × FS :=
  if fs.xcodeprojDirExists = false then
    (false, fs)
  else
    match tryMain steps fs with
    | (fs1, none) => (true, fs1)
    | (fs1, some _e) =>
        match fs1.backup with
        | some b => (false, { fs1 with project := some b })
        | none => (false, fs1)

/-- The `if __name__ == "__main__": main()` harness of `fix_xcode_project.py`
discards the boolean returned by `main`, and `main` lets no exception escape
(every raise inside the `try` block is caught and the restore is guarded by
the existence check), so the interpreter always exits with status 0. -/
def fix_script_exit (steps : List PatchStep) (fs : FS) : Nat :=
  match fix_xcode_main steps fs with
  | (_, _) => 0

/-! ## validate_implementation.py -/

/-- Files visible to the validation script: existence and text content per
absolute path. -/
structure VFS where
  pathExists : String → Bool
  fileText : String → String

/-- `os.path.join(base, p)` for the relative paths used by the script. -/
def pyJoin (base p : String) : String := base ++ "/" ++ p

/-- `base_dir` constant of the validation script. -/
def validate_base_dir : String := "/home/runner/work/hamrah-ios/hamrah-ios"

/-- `core_files` list. -/
def core_files : List String :=
  [ "hamrah-ios/ProgressiveAuthView.swift",
    "hamrah-ios/BiometricLaunchView.swift",
    "hamrah-ios/BiometricAuthManager.swift",
    "hamrah-ios/NativeAuthManager.swift" ]

/-- `test_files` list. -/
def test_files : List String :=
  [ "hamrah-ios-tests/hamrahIOSTests.swift",
    "hamrah-ios-tests/BiometricLaunchTests.swift" ]

/-- `doc_files` list. -/
def doc_files : List String := ["FACE_ID_INTEGRATION.md"]

/-- `progressive_auth_content` search strings. -/
def progressive_auth_content : List String :=
  [ "biometricAuthPending", "checkBiometricAuthRequirement",
    "handleBiometricAuthOnLaunch", "hasCheckedBiometric",
    "BiometricLaunchView" ]

/-- `biometric_launch_content` search strings. -/
def biometric_launch_content : List String :=
  [ "BiometricLaunchView", "biometricManager", "biometricIconName",
    "Unlock Hamrah" ]

/-- `test_content` search strings. -/
def test_content : List String :=
  [ "BiometricLaunchScenarioTests", "testUnauthenticatedUserShowsLogin",
    "testAuthenticatedUserWithFaceIDRequiresBiometric",
    "testSuccessfulFaceIDKeepsUserLoggedIn" ]

/-- `check_file_exists`. -/
def check_file_exists (v : VFS) (p : String) : Bool := v.pathExists p

/-- `check_file_contains`: `False` when the file is missing, otherwise the
conjunction of the substring tests. -/
def check_file_contains (v : VFS) (p : String) (ss : List String) : Bool :=
  if !v.pathExists p then false
  else ss.all (fun s => containsSub s.data (v.fileText p).data)

/-- The `all_checks_passed` flag computed by `validate_implementation.main`:
existence of the core, test and documentation files and the three content
checks.  The script evaluates every check and ands the results. -/
def validate_all_checks_passed (v : VFS) : Bool :=
  (core_files.all (fun p => check_file_exists v (pyJoin validate_base_dir p)))
  && (test_files.all (fun p => check_file_exists v (pyJoin validate_base_dir p)))
  && (doc_files.all (fun p => check_file_exists v (pyJoin validate_base_dir p)))
  && check_file_contains v (pyJoin validate_base_dir "hamrah-ios/ProgressiveAuthView.swift")
      progressive_auth_content
  && check_file_contains v (pyJoin validate_base_dir "hamrah-ios/BiometricLaunchView.swift")
      biometric_launch_content
  && check_file_contains v (pyJoin validate_base_dir "hamrah-ios-tests/BiometricLaunchTests.swift")
      test_content

/-- `validate_implementation.main` returns 0 when every check passed and 1
otherwise; `sys.exit(main())` makes that the process exit status. -/
def validate_exit (v : VFS) : Nat :=
  if validate_all_checks_passed v then 0 else 1

/-! ## configure_share_extension.update_project_configuration -/

/-- `update_project_configuration`: return `False` when the descriptor is
missing; otherwise read its content, write that content to the sibling
backup path, print manual instructions, and return `True`.  The
`shareext_config` settings string the function builds is never used, and the
descriptor itself is never written. -/
def update_project_configuration (fs : FS) : Bool × FS :=
  match fs.project with
  | none => (false, fs)
  | some content => (true, { fs with backup := some content })

/-! ## Concrete descriptors used in the theorems -/

/-- A minimal project descriptor containing the main app target (with empty
buildPhases and dependencies lists) and the four section end markers the
insertion rules anchor on. -/
def sampleDescriptor : String :=
  "/* Begin PBXBuildFile section */\n/* End PBXBuildFile section */\n/* Begin PBXContainerItemProxy section */\n/* End PBXContainerItemProxy section */\n/* Begin PBXNativeTarget section */\n\t\t3AC7BF752E4900DF00D7AA35 /* hamrah-ios */ = \x7b\n\t\t\tisa = PBXNativeTarget;\n\t\t\tbuildPhases = (\n\t\t\t);\n\t\t\tdependencies = (\n\t\t\t);\n\t\t\x7d;\n/* End PBXNativeTarget section */\n/* Begin PBXTargetDependency section */\n/* End PBXTargetDependency section */\n/* Begin PBXCopyFilesBuildPhase section */\n/* End PBXCopyFilesBuildPhase section */\n"

/-- A descriptor fragment in which the `5FEXTREL0001` settings-block anchor
matches twice (the release anchor is used so that the oversized rewritten
text is produced by the second, final `re.sub` pass of the settings rewrite
and is never rescanned, which keeps kernel evaluation shallow). -/
def twoRelAnchors : String :=
  "\t\t5FEXTREL0001 /* Release */ = \x7b\n\t\t\tisa = XCBuildConfiguration;\n\t\t\tbuildSettings = \x7b\n\t\t\t\tFOO = 1;\n\t\t\t\x7d;\n\t\t\x7d;\n\t\t5FEXTREL0001 /* Release */ = \x7b\n\t\t\tbuildSettings = \x7b\n\t\t\t\tBAR = 2;\n\t\t\t\x7d;\n\t\t\x7d;\n"

/-- Text in which an old ShareExtension path occurs once on its own and once
as a proper substring of a longer path. -/
def fileRefSample : String :=
  "path = hamrah-ios/ShareExtension/Info.plist; other = XX-hamrah-ios/ShareExtension/Info.plist.bak;"

/-- Text in which an old ShareExtension path occurs only as a proper
substring of a longer unrelated path. -/
def fileRefEmbeddedOnly : String :=
  "ref = XX-hamrah-ios/ShareExtension/Info.plist.bak;"

/-- A resources file list of an unrelated target: its own `Info.plist in
Resources` entry and a `Main.storyboard in Resources` entry. -/
def unrelatedResources : String :=
  "\t\t\tfiles = (\n\t\t\t\tAAAA0001BBBB0002CCCC0003 /* Info.plist in Resources */,\n\t\t\t\tDDDD0004EEEE0005FFFF0006 /* Main.storyboard in Resources */,\n\t\t\t);\n"

/-- The sixteen lowercase hexadecimal digits (the alphabet of
`uuid.uuid4().hex`). -/
def lowerHexDigits : List Char := "0123456789abcdef".data

/-- The sixteen uppercase hexadecimal digits. -/
def upperHexDigits : List Char := "0123456789ABCDEF".data

/-! ## Theorems -/

set_option maxRecDepth 200000 in
set_option maxHeartbeats 2000000 in
/-- C1: the claim that a second run of the full patch sequence returns its
input unchanged is refuted by the code: on `sampleDescriptor` (on which the
first run succeeds and inserts the dependency and embed-phase entries), the
second run appends a second `5FEXTDEP0001` entry to the main target's
dependencies list, because `add_dependency` appends without checking
membership.  Hence `Apply(Apply(D)) ≠ Apply(D)`. -/
theorem c1_second_run_changes_output :
    apply_all_patches (apply_all_patches sampleDescriptor) ≠
      apply_all_patches sampleDescriptor := by decide

set_option maxRecDepth 200000 in
set_option maxHeartbeats 2000000 in
/-- C2: running `add_embedded_extension` twice on `sampleDescriptor` leaves
the descriptor with two occurrences of `5FEXTDEP0001` — both of them entries
of the main app target's dependencies list (the full output is given
verbatim, showing the duplicated entry and the stray double comma) — and
with no `PBXTargetDependency` object definition at all: the insertion never
checks the dependencies list before appending, and the guard
`'5FEXTDEP0001' not in content` that protects the object definition is
already false right after the list append, so the definition is never
inserted. -/
theorem c2_duplicate_dependency_entries :
    add_embedded_extension (add_embedded_extension sampleDescriptor) =
      "/* Begin PBXBuildFile section */\n/* End PBXBuildFile section */\n/* Begin PBXContainerItemProxy section */\n/* End PBXContainerItemProxy section */\n/* Begin PBXNativeTarget section */\n\t\t3AC7BF752E4900DF00D7AA35 /* hamrah-ios */ = \x7b\n\t\t\tisa = PBXNativeTarget;\n\t\t\tbuildPhases = (\n\t\t\t\t5FEXTBED0001 /* Embed App Extensions */,\n\t\t\t);\n\t\t\tdependencies = (5FEXTDEP0001 /* PBXTargetDependency */,,\n\t\t\t\t5FEXTDEP0001 /* PBXTargetDependency */,\n\t\t\t);\n\t\t\x7d;\n/* End PBXNativeTarget section */\n/* Begin PBXTargetDependency section */\n/* End PBXTargetDependency section */\n/* Begin PBXCopyFilesBuildPhase section */\n/* End PBXCopyFilesBuildPhase section */\n"
    ∧ countSub "5FEXTDEP0001".data
        (add_embedded_extension (add_embedded_extension sampleDescriptor)).data = 2
    ∧ countSub "isa = PBXTargetDependency;".data
        (add_embedded_extension (add_embedded_extension sampleDescriptor)).data = 0 := by
  refine ⟨by decide, by decide, by decide⟩

set_option maxRecDepth 400000 in
set_option maxHeartbeats 4000000 in
/-- C6: the claim that the settings-rewrite step signals a
`StructuralAmbiguity` error when an anchored pattern matches more than once
is refuted by the code: on `twoRelAnchors`, where the `5FEXTREL0001` anchor
matches twice, `fix_shareextension_target_settings` raises nothing and
rewrites the second matched block as well: the output differs from the input
and the release-only canonical setting `SWIFT_COMPILATION_MODE = wholemodule;`
occurs inside the first rewritten block (at offset 2822) and inside the
second rewritten block (at offset 5662; the second anchor sits at offset
2873 of the output). -/
theorem c6_second_match_rewritten :
    fix_shareextension_target_settings twoRelAnchors ≠ twoRelAnchors
    ∧ ("SWIFT_COMPILATION_MODE = wholemodule;".data).isPrefixOf
        ((fix_shareextension_target_settings twoRelAnchors).data.drop 2822) = true
    ∧ ("5FEXTREL0001".data).isPrefixOf
        ((fix_shareextension_target_settings twoRelAnchors).data.drop 2873) = true
    ∧ ("SWIFT_COMPILATION_MODE = wholemodule;".data).isPrefixOf
        ((fix_shareextension_target_settings twoRelAnchors).data.drop 5662) = true := by
  refine ⟨by decide, by decide, by decide, by decide⟩

set_option maxRecDepth 400000 in
set_option maxHeartbeats 4000000 in
/-- C6 (amended): when a settings-block anchor pattern matches more than
once, the settings-rewrite step rewrites every match (`re.sub` substitutes
globally) and signals no error.  On `twoRelAnchors` the full 5711-character
output is pinned down exactly: three prefix probes cover positions 0-2000,
2000-4000 and 4000-5711, and the `drop 5711 = []` conjunct pins the length,
so together they determine the output byte for byte.  Both anchored blocks
carry the canonical release settings and the old contents `FOO = 1;` and
`BAR = 2;` are gone. -/
theorem c6_amended_rewrites_every_match :
    ("\t\t5FEXTREL0001 /* Release */ = \x7b\n\t\t\tisa = XCBuildConfiguration;\n\t\t\tbuildSettings = \x7b\n\t\t\t\tASSETCATALOG_COMPILER_GENERATE_SWIFT_ASSET_SYMBOL_EXTENSIONS = YES;\n\t\t\t\tCLANG_ANALYZER_NONNULL = YES;\n\t\t\t\tCLANG_ANALYZER_NUMBER_OBJECT_CONVERSION = YES_AGGRESSIVE;\n\t\t\t\tCLANG_CXX_LANGUAGE_STANDARD = \"gnu++20\";\n\t\t\t\tCLANG_ENABLE_MODULES = YES;\n\t\t\t\tCLANG_ENABLE_OBJC_ARC = YES;\n\t\t\t\tCLANG_ENABLE_OBJC_WEAK = YES;\n\t\t\t\tCLANG_WARN_BLOCK_CAPTURE_AUTORELEASING = YES;\n\t\t\t\tCLANG_WARN_BOOL_CONVERSION = YES;\n\t\t\t\tCLANG_WARN_COMMA = YES;\n\t\t\t\tCLANG_WARN_CONSTANT_CONVERSION = YES;\n\t\t\t\tCLANG_WARN_DEPRECATED_OBJC_IMPLEMENTATIONS = YES;\n\t\t\t\tCLANG_WARN_DIRECT_OBJC_ISA_USAGE = YES_ERROR;\n\t\t\t\tCLANG_WARN_DOCUMENTATION_COMMENTS = YES;\n\t\t\t\tCLANG_WARN_EMPTY_BODY = YES;\n\t\t\t\tCLANG_WARN_ENUM_CONVERSION = YES;\n\t\t\t\tCLANG_WARN_INFINITE_RECURSION = YES;\n\t\t\t\tCLANG_WARN_INT_CONVERSION = YES;\n\t\t\t\tCLANG_WARN_NON_LITERAL_NULL_CONVERSION = YES;\n\t\t\t\tCLANG_WARN_OBJC_IMPLICIT_RETAIN_SELF = YES;\n\t\t\t\tCLANG_WARN_OBJC_LITERAL_CONVERSION = YES;\n\t\t\t\tCLANG_WARN_OBJC_ROOT_CLASS = YES_ERROR;\n\t\t\t\tCLANG_WARN_QUOTED_INCLUDE_IN_FRAMEWORK_HEADER = YES;\n\t\t\t\tCLANG_WARN_RANGE_LOOP_ANALYSIS = YES;\n\t\t\t\tCLANG_WARN_STRICT_PROTOTYPES = YES;\n\t\t\t\tCLANG_WARN_SUSPICIOUS_MOVE = YES;\n\t\t\t\tCLANG_WARN_UNGUARDED_AVAILABILITY = YES_AGGRESSIVE;\n\t\t\t\tCLANG_WARN_UNREACHABLE_CODE = YES;\n\t\t\t\tCLANG_WARN_UNUSUED_VARIABLE = YES;\n\t\t\t\tCODE_SIGN_ENTITLEMENTS = \"ShareExtension/Sources/ShareExtension.entitlements\";\n\t\t\t\tCODE_SIGN_STYLE = Automatic;\n\t\t\t\tCURRENT_PROJECT_VERSION = 1;\n\t\t\t\tDEVELOPMENT_TEAM = \"\";\n\t\t\t\tENABLE_STRICT_OBJC_MSGSEND = YES;\n\t\t\t\tGCC_C_LANGUAGE_STANDARD = gnu17;\n\t\t\t\tGCC_NO_COMMON_BLOCKS = YES;\n\t\t\t\tGCC_WARN_64_TO_32_BIT_CONVERSION = YES;\n\t\t\t\tGCC_WARN_ABOUT_RETURN_TYPE = YES_ERROR;\n\t\t\t\tGCC_WARN_UNDECLARED_SELECTOR = YES;\n\t\t\t\tGCC_WARN_UNINITIALIZED_AUTOS = YES_AGGRESSIVE;\n\t\t\t\tGCC_WARN_UNUSED_FUNCTION = YES;\n\t\t\t\tGCC_WARN_UNUSED_VARIABLE = YES;\n\t\t\t\tGENERATE_INFOPLIST_FILE = YES;\n\t\t\t\tINFOPLIST_FILE = \"ShareExtension/Sources/Info.plist\";\n\t\t\t\tINFOPLIST_KEY_CFB".data).isPrefixOf
        (fix_shareextension_target_settings twoRelAnchors).data = true
    ∧ ("undleDisplayName = \"Hamrah Share\";\n\t\t\t\tINFOPLIST_KEY_NSHumanReadableCopyright = \"\";\n\t\t\t\tIPHONEOS_DEPLOYMENT_TARGET = 17.0;\n\t\t\t\tLD_RUNPATH_SEARCH_PATHS = (\n\t\t\t\t\t\"$(inherited)\",\n\t\t\t\t\t\"@executable_path/Frameworks\",\n\t\t\t\t\t\"@executable_path/../../Frameworks\",\n\t\t\t\t);\n\t\t\t\tMACOSX_DEPLOYMENT_TARGET = 14.0;\n\t\t\t\tMARKETING_VERSION = 1.0;\n\t\t\t\tMTL_ENABLE_DEBUG_INFO = INCLUDE_SOURCE;\n\t\t\t\tMTL_FAST_MATH = YES;\n\t\t\t\tPRODUCT_BUNDLE_IDENTIFIER = \"app.hamrah.ios.ShareExtension\";\n\t\t\t\tPRODUCT_NAME = \"$(TARGET_NAME)\";\n\t\t\t\tSKIP_INSTALL = YES;\n\t\t\t\tSUPPORTED_PLATFORMS = \"iphoneos iphonesimulator macosx\";\n\t\t\t\tSWIFT_EMIT_LOC_STRINGS = YES;\n\t\t\t\tSWIFT_VERSION = 5.0;\n\t\t\t\tTARGETED_DEVICE_FAMILY = \"1,2\";\n\t\t\t\tCOPY_PHASE_STRIP = NO;\n\t\t\t\tDEBUG_INFORMATION_FORMAT = \"dwarf-with-dsym\";\n\t\t\t\tENABLE_NS_ASSERTIONS = NO;\n\t\t\t\tMTL_ENABLE_DEBUG_INFO = NO;\n\t\t\t\tSWIFT_COMPILATION_MODE = wholemodule;\n\t\t\t\x7d;\n\t\t\x7d;\n\t\t5FEXTREL0001 /* Release */ = \x7b\n\t\t\tbuildSettings = \x7b\n\t\t\t\tASSETCATALOG_COMPILER_GENERATE_SWIFT_ASSET_SYMBOL_EXTENSIONS = YES;\n\t\t\t\tCLANG_ANALYZER_NONNULL = YES;\n\t\t\t\tCLANG_ANALYZER_NUMBER_OBJECT_CONVERSION = YES_AGGRESSIVE;\n\t\t\t\tCLANG_CXX_LANGUAGE_STANDARD = \"gnu++20\";\n\t\t\t\tCLANG_ENABLE_MODULES = YES;\n\t\t\t\tCLANG_ENABLE_OBJC_ARC = YES;\n\t\t\t\tCLANG_ENABLE_OBJC_WEAK = YES;\n\t\t\t\tCLANG_WARN_BLOCK_CAPTURE_AUTORELEASING = YES;\n\t\t\t\tCLANG_WARN_BOOL_CONVERSION = YES;\n\t\t\t\tCLANG_WARN_COMMA = YES;\n\t\t\t\tCLANG_WARN_CONSTANT_CONVERSION = YES;\n\t\t\t\tCLANG_WARN_DEPRECATED_OBJC_IMPLEMENTATIONS = YES;\n\t\t\t\tCLANG_WARN_DIRECT_OBJC_ISA_USAGE = YES_ERROR;\n\t\t\t\tCLANG_WARN_DOCUMENTATION_COMMENTS = YES;\n\t\t\t\tCLANG_WARN_EMPTY_BODY = YES;\n\t\t\t\tCLANG_WARN_ENUM_CONVERSION = YES;\n\t\t\t\tCLANG_WARN_INFINITE_RECURSION = YES;\n\t\t\t\tCLANG_WARN_INT_CONVERSION = YES;\n\t\t\t\tCLANG_WARN_NON_LITERAL_NULL_CONVERSION = YES;\n\t\t\t\tCLANG_WARN_OBJC_IMPLICIT_RETAIN_SELF = YES;\n\t\t\t\tCLANG_WARN_OBJC_LITERAL_CONVERSION = YES;\n\t\t\t\tCLANG_WARN_OBJC_ROOT_CLASS = YES_ERROR;\n\t\t\t\tCLANG_WARN_QUOTED_INCLUDE_IN_FRAMEWORK_HEADER = YES;\n\t\t\t\tCLANG_WARN_RANGE_LOOP_ANALYSIS = YES;\n\t\t\t\tCLANG_WARN_STRIC".data).isPrefixOf
        ((fix_shareextension_target_settings twoRelAnchors).data.drop 2000) = true
    ∧ ("T_PROTOTYPES = YES;\n\t\t\t\tCLANG_WARN_SUSPICIOUS_MOVE = YES;\n\t\t\t\tCLANG_WARN_UNGUARDED_AVAILABILITY = YES_AGGRESSIVE;\n\t\t\t\tCLANG_WARN_UNREACHABLE_CODE = YES;\n\t\t\t\tCLANG_WARN_UNUSUED_VARIABLE = YES;\n\t\t\t\tCODE_SIGN_ENTITLEMENTS = \"ShareExtension/Sources/ShareExtension.entitlements\";\n\t\t\t\tCODE_SIGN_STYLE = Automatic;\n\t\t\t\tCURRENT_PROJECT_VERSION = 1;\n\t\t\t\tDEVELOPMENT_TEAM = \"\";\n\t\t\t\tENABLE_STRICT_OBJC_MSGSEND = YES;\n\t\t\t\tGCC_C_LANGUAGE_STANDARD = gnu17;\n\t\t\t\tGCC_NO_COMMON_BLOCKS = YES;\n\t\t\t\tGCC_WARN_64_TO_32_BIT_CONVERSION = YES;\n\t\t\t\tGCC_WARN_ABOUT_RETURN_TYPE = YES_ERROR;\n\t\t\t\tGCC_WARN_UNDECLARED_SELECTOR = YES;\n\t\t\t\tGCC_WARN_UNINITIALIZED_AUTOS = YES_AGGRESSIVE;\n\t\t\t\tGCC_WARN_UNUSED_FUNCTION = YES;\n\t\t\t\tGCC_WARN_UNUSED_VARIABLE = YES;\n\t\t\t\tGENERATE_INFOPLIST_FILE = YES;\n\t\t\t\tINFOPLIST_FILE = \"ShareExtension/Sources/Info.plist\";\n\t\t\t\tINFOPLIST_KEY_CFBundleDisplayName = \"Hamrah Share\";\n\t\t\t\tINFOPLIST_KEY_NSHumanReadableCopyright = \"\";\n\t\t\t\tIPHONEOS_DEPLOYMENT_TARGET = 17.0;\n\t\t\t\tLD_RUNPATH_SEARCH_PATHS = (\n\t\t\t\t\t\"$(inherited)\",\n\t\t\t\t\t\"@executable_path/Frameworks\",\n\t\t\t\t\t\"@executable_path/../../Frameworks\",\n\t\t\t\t);\n\t\t\t\tMACOSX_DEPLOYMENT_TARGET = 14.0;\n\t\t\t\tMARKETING_VERSION = 1.0;\n\t\t\t\tMTL_ENABLE_DEBUG_INFO = INCLUDE_SOURCE;\n\t\t\t\tMTL_FAST_MATH = YES;\n\t\t\t\tPRODUCT_BUNDLE_IDENTIFIER = \"app.hamrah.ios.ShareExtension\";\n\t\t\t\tPRODUCT_NAME = \"$(TARGET_NAME)\";\n\t\t\t\tSKIP_INSTALL = YES;\n\t\t\t\tSUPPORTED_PLATFORMS = \"iphoneos iphonesimulator macosx\";\n\t\t\t\tSWIFT_EMIT_LOC_STRINGS = YES;\n\t\t\t\tSWIFT_VERSION = 5.0;\n\t\t\t\tTARGETED_DEVICE_FAMILY = \"1,2\";\n\t\t\t\tCOPY_PHASE_STRIP = NO;\n\t\t\t\tDEBUG_INFORMATION_FORMAT = \"dwarf-with-dsym\";\n\t\t\t\tENABLE_NS_ASSERTIONS = NO;\n\t\t\t\tMTL_ENABLE_DEBUG_INFO = NO;\n\t\t\t\tSWIFT_COMPILATION_MODE = wholemodule;\n\t\t\t\x7d;\n\t\t\x7d;\n".data).isPrefixOf
        ((fix_shareextension_target_settings twoRelAnchors).data.drop 4000) = true
    ∧ ((fix_shareextension_target_settings twoRelAnchors).data.drop 5711) = [] := by
  refine ⟨by decide, by decide, by decide, by decide⟩

set_option maxRecDepth 200000 in
/-- C7: the claim that text in which an old ShareExtension path occurs only
as a proper substring of a longer unrelated path is left unchanged is
refuted: in `fileRefEmbeddedOnly` the old path
`hamrah-ios/ShareExtension/Info.plist` occurs only inside the longer path
`XX-hamrah-ios/ShareExtension/Info.plist.bak`, yet `fix_file_references`
rewrites it. -/
theorem c7_substring_occurrence_replaced :
    fix_file_references fileRefEmbeddedOnly ≠ fileRefEmbeddedOnly := by decide

set_option maxRecDepth 200000 in
/-- C7 (amended): `fix_file_references` replaces each old ShareExtension
path with its canonical new path as a plain substring substitution, with no
anchoring on path boundaries: a standalone occurrence and an occurrence
embedded in a longer path are both rewritten. -/
theorem c7_amended_plain_substitution :
    fix_file_references fileRefSample =
      "path = ShareExtension/Sources/Info.plist; other = XX-ShareExtension/Sources/Info.plist.bak;"
    ∧ fix_file_references fileRefEmbeddedOnly =
      "ref = XX-ShareExtension/Sources/Info.plist.bak;" := by
  refine ⟨by decide, by decide⟩

set_option maxRecDepth 200000 in
/-- C8: the claim that only resource entries of the embedded ShareExtension
target are removed is refuted: `unrelatedResources` is a resources file list
of an unrelated target, yet its `Info.plist in Resources` entry (object ID
`AAAA0001BBBB0002CCCC0003`) is deleted by
`remove_shareextension_from_main_app_resources`. -/
theorem c8_unrelated_entry_removed :
    remove_shareextension_from_main_app_resources unrelatedResources ≠
        unrelatedResources
    ∧ countSub "AAAA0001BBBB0002CCCC0003".data
        (remove_shareextension_from_main_app_resources unrelatedResources).data = 0 := by
  refine ⟨by decide, by decide⟩

set_option maxRecDepth 200000 in
/-- C8 (amended): the removal step deletes every build-file entry whose
comment matches the fixed filename pattern `Info.plist in Resources` (or
`ShareExtension in Resources`), anywhere in the text and irrespective of
which target's phase contains it, while entries with other filenames (here
`Main.storyboard in Resources`) are kept. -/
theorem c8_amended_filename_pattern_removal :
    remove_shareextension_from_main_app_resources unrelatedResources =
      "\t\t\tfiles = (\t\t\t\tDDDD0004EEEE0005FFFF0006 /* Main.storyboard in Resources */,\n\t\t\t);\n" := by
  decide

/-- C3: if the patching stage raises during a run of `main`
(`fix_xcode_main`), the on-disk descriptor after the run equals its content
before the run: the mutated text is only written after every step has
succeeded, and the `except` branch restores the backup written by
`backup_project` at the start of the run. -/
theorem c3_rollback_preserves_project (steps : List PatchStep) (fs : FS)
    (c : String) (e : PyExn) (hread : fs.project = some c)
    (hfail : applySteps steps c = .error e) :
    (fix_xcode_main steps fs).2.project = fs.project := by
  obtain ⟨d, p, b⟩ := fs
  simp only at hread
  subst hread
  cases d <;>
    simp [fix_xcode_main, tryMain, backup_project, read_project_file, hfail,
      write_project_file]

/-- Witness for C3: a concrete state with an existing descriptor and a
raising patch step. -/
theorem c3_rollback_preserves_project_witness :
    (FS.mk true (some "P") none).project = some "P"
    ∧ applySteps [fun _ => Except.error PyExn.patchError] "P"
        = Except.error PyExn.patchError
    ∧ (fix_xcode_main [fun _ => Except.error PyExn.patchError]
        (FS.mk true (some "P") none)).2.project
        = (FS.mk true (some "P") none).project :=
  ⟨rfl, rfl,
    c3_rollback_preserves_project _ _ "P" PyExn.patchError rfl rfl⟩

/-- C4: the claim that the exit code is 2 when a patch rule fails after a
successful rollback is refuted: in a run where the patch step raises and the
rollback succeeds (the descriptor is restored from the backup), the
`__main__` harness of `fix_xcode_project.py` discards `main`'s `False`
result, so the process exits 0, not 2. -/
theorem c4_patch_failure_exits_zero :
    fix_xcode_main [fun _ => Except.error PyExn.patchError]
        (FS.mk true (some "P") none)
      = (false, FS.mk true (some "P") (some "P"))
    ∧ fix_script_exit [fun _ => Except.error PyExn.patchError]
        (FS.mk true (some "P") none) = 0
    ∧ fix_script_exit [fun _ => Except.error PyExn.patchError]
        (FS.mk true (some "P") none) ≠ 2 := by
  refine ⟨rfl, rfl, by decide⟩

/-- C4 (amended): the process exit code of `fix_xcode_project.py` is always
0 — on success and also when a patch rule fails after a successful rollback,
because the harness never turns `main`'s boolean into an exit status — while
`validate_implementation.py` exits 0 exactly when all its checks pass and 1
on validation failure. -/
theorem c4_amended_exit_codes :
    (∀ (steps : List PatchStep) (fs : FS), fix_script_exit steps fs = 0)
    ∧ (∀ v : VFS, validate_exit v
        = if validate_all_checks_passed v then 0 else 1) :=
  ⟨fun _ _ => rfl, fun _ => rfl⟩

/-- C5: the claim that the restore step fails loudly when the backup file is
missing is refuted: with the `.xcodeproj` directory present but the
descriptor absent, `backup_project` raises before a backup exists, the
`except` branch finds no backup and silently skips the restore, and the run
returns the same plain `(false, unchanged file system)` outcome as an
ordinary failure — the boolean result is identical to that of a run whose
rollback succeeded, so nothing distinguishes the missing-backup case. -/
theorem c5_missing_backup_silent :
    fix_xcode_main [fun _ => Except.error PyExn.patchError] (FS.mk true none none)
      = (false, FS.mk true none none)
    ∧ (fix_xcode_main [fun _ => Except.error PyExn.patchError]
        (FS.mk true none none)).1
      = (fix_xcode_main [fun _ => Except.error PyExn.patchError]
        (FS.mk true (some "P") none)).1 := by
  refine ⟨rfl, rfl⟩

/-- C5 (amended): when an exception is caught while the backup file does not
exist (reachable exactly when creating the backup itself failed), the
restore step is silently skipped: `main` returns `False` with the file
system unchanged, exactly as for any other failure, and surfaces no distinct
error. -/
theorem c5_amended_silent_skip (steps : List PatchStep) (fs : FS)
    (hdir : fs.xcodeprojDirExists = true) (hproj : fs.project = none)
    (hbak : fs.backup = none) :
    fix_xcode_main steps fs = (false, fs) := by
  obtain ⟨d, p, b⟩ := fs
  simp only at hdir hproj hbak
  subst hdir; subst hproj; subst hbak
  simp [fix_xcode_main, tryMain, backup_project]

/-- Witness for the amended C5 at a concrete state. -/
theorem c5_amended_silent_skip_witness :
    ((FS.mk true none none).xcodeprojDirExists = true
     ∧ (FS.mk true none none).project = none
     ∧ (FS.mk true none none).backup = none)
    ∧ fix_xcode_main [fun _ => Except.error PyExn.ioError] (FS.mk true none none)
        = (false, FS.mk true none none) :=
  ⟨⟨rfl, rfl, rfl⟩, c5_amended_silent_skip _ _ rfl rfl rfl⟩

/-- C9: `generate_uuid` applied to the 32-character lowercase hexadecimal
digest of `uuid4` returns a string of exactly 24 characters, each an
uppercase hexadecimal digit. -/
theorem c9_generate_uuid_format (hex32 : List Char) (hlen : hex32.length = 32)
    (hhex : ∀ c ∈ hex32, c ∈ lowerHexDigits) :
    (generate_uuid hex32).length = 24
    ∧ ∀ c ∈ generate_uuid hex32, c ∈ upperHexDigits := by
  constructor
  · simp [generate_uuid, hlen]
  · intro c hc
    simp only [generate_uuid, List.mem_map] at hc
    obtain ⟨c', hc', rfl⟩ := hc
    have h1 : c' ∈ hex32 := List.take_subset 24 hex32 hc'
    have key : ∀ x ∈ lowerHexDigits, Char.toUpper x ∈ upperHexDigits := by decide
    exact key c' (hhex c' h1)

/-- Witness for C9 at a concrete 32-character digest. -/
theorem c9_generate_uuid_format_witness :
    ("0123456789abcdef0123456789abcdef".data.length = 32
     ∧ ∀ c ∈ "0123456789abcdef0123456789abcdef".data, c ∈ lowerHexDigits)
    ∧ ((generate_uuid "0123456789abcdef0123456789abcdef".data).length = 24
       ∧ ∀ c ∈ generate_uuid "0123456789abcdef0123456789abcdef".data,
           c ∈ upperHexDigits) :=
  ⟨⟨by decide, by decide⟩,
    c9_generate_uuid_format _ (by decide) (by decide)⟩

/-- C10: for every file-system state with an existing descriptor,
`update_project_configuration` returns `True`, writes a byte-identical copy
of the descriptor's current content to the sibling backup path, and leaves
the descriptor itself unchanged. -/
theorem c10_update_project_configuration_readonly (fs : FS) (c : String)
    (h : fs.project = some c) :
    (update_project_configuration fs).1 = true
    ∧ (update_project_configuration fs).2.project = some c
    ∧ (update_project_configuration fs).2.backup = some c := by
  obtain ⟨d, p, b⟩ := fs
  simp only at h
  subst h
  simp [update_project_configuration]

/-- Witness for C10 at a concrete state. -/
theorem c10_update_project_configuration_readonly_witness :
    (FS.mk false (some "content") none).project = some "content"
    ∧ ((update_project_configuration (FS.mk false (some "content") none)).1 = true
       ∧ (update_project_configuration (FS.mk false (some "content") none)).2.project
           = some "content"
       ∧ (update_project_configuration (FS.mk false (some "content") none)).2.backup
           = some "content") :=
  ⟨rfl, c10_update_project_configuration_readonly _ "content" rfl⟩
